import Mathlib

/-
Verification development for the Extended Exchange compatibility adapter
(`extended` Python package).  The definitions below are shallow embeddings of
the functions in `src/extended/utils/helpers.py`,
`src/extended/api/exchange_async.py`, `src/extended/api/exchange_native_sync.py`
and `src/extended/transformers/order.py`.  Python strings are modelled as
`String`/`List Char`, `Decimal` arithmetic as exact rationals `ℚ` (the default
`Decimal` context of 28 significant digits never changes any result proved
here, as noted at each use site), raised exceptions as `Except.error`, and the
per-thread event-loop registry as an explicit state record.
-/

/- ------------------------------------------------------------------
   Market names (src/extended/utils/helpers.py lines 23-53)
   ------------------------------------------------------------------ -/

/-- The character list of the literal `"-USD"`. -/
def usdSuffix : List Char := ['-', 'U', 'S', 'D']

/-- `normalize_market_name` (helpers.py lines 23-38):
`if "-" not in name: return f"{name}-USD"` else `return name`. -/
def normalize_market_name (name : List Char) : List Char :=
  if '-' ∉ name then name ++ usdSuffix else name

/-- Fuel-indexed scan implementing Python `str.replace("-USD", "")`:
walk the string left to right; whenever the next four characters are
`-USD`, drop them and continue after the match, otherwise keep one
character.  The fuel (instantiated with the input length in `stripUSD`)
only makes the recursion structural; it never runs out. -/
def stripFuel : Nat → List Char → List Char
  | 0, l => l
  | _ + 1, [] => []
  | fuel + 1, c :: rest =>
    if usdSuffix.isPrefixOf (c :: rest) then
      stripFuel fuel ((c :: rest).drop 4)
    else
      c :: stripFuel fuel rest

/-- All occurrences of `"-USD"` removed, leftmost first, non-overlapping:
the semantics of Python `name.replace("-USD", "")`. -/
def stripUSD (l : List Char) : List Char := stripFuel l.length l

/-- `to_hyperliquid_market_name` (helpers.py lines 41-53):
`return name.replace("-USD", "")`. -/
def to_hyperliquid_market_name (name : List Char) : List Char := stripUSD name

/- ------------------------------------------------------------------
   Python exceptions and deferred work
   ------------------------------------------------------------------ -/

/-- Python exception value: constructor = exception class, field = `str(e)`.
`timeoutExc` stands for the builtin `TimeoutError` (which is the same class
as `asyncio.TimeoutError` on the Python versions this package targets), and
`validationError` for `extended.exceptions.ExtendedValidationError`. -/
inductive PyExc where
  | valueError (msg : String)
  | runtimeError (msg : String)
  | timeoutExc (msg : String)
  | validationError (msg : String)
  | other (className msg : String)
deriving DecidableEq, Repr

/-- `str(e)` of a modelled Python exception. -/
def pymsg : PyExc → String
  | .valueError m => m
  | .runtimeError m => m
  | .timeoutExc m => m
  | .validationError m => m
  | .other _ m => m

/-- Whether the exception is (an alias of) the builtin `TimeoutError`,
i.e. would be caught by `except asyncio.TimeoutError`. -/
def is_timeout_exc : PyExc → Bool
  | .timeoutExc _ => true
  | _ => false

/-- A deferred computation (the coroutine handed to `run_sync`): it runs for
`duration` seconds of wall-clock time and then either returns a value or
raises an exception.  A coroutine is consumed by its first await. -/
structure Work (α : Type) where
  duration : ℚ
  outcome : Except PyExc α

/-- Substring containment on character lists: Python's `pat in s` for `str`.
True iff `pat` occurs contiguously inside `haystack`. -/
def containsSub (haystack pat : List Char) : Bool :=
  match haystack with
  | [] => pat.isEmpty
  | _ :: rest => pat.isPrefixOf haystack || containsSub rest pat

/-- Whether running the work raises the cross-loop attachment `RuntimeError`
that `run_sync` line 121 looks for: a `RuntimeError` whose `str(e)` contains
the substring `"attached to a different loop"`. -/
def has_loop_conflict (w : Work α) : Bool :=
  match w.outcome with
  | .error (.runtimeError m) => containsSub m.toList "attached to a different loop".toList
  | _ => false

/- ------------------------------------------------------------------
   run_sync (src/extended/utils/helpers.py lines 56-174)
   ------------------------------------------------------------------ -/

/-- The thread-name test of `run_sync` lines 74-78: the current thread name
contains `"ThreadPoolExecutor"`, `"CrossEx"` or `"Worker"` as a substring
(Python `in` on `str`). -/
def is_threadpool (threadName : String) : Bool :=
  containsSub threadName.toList "ThreadPoolExecutor".toList
  || containsSub threadName.toList "CrossEx".toList
  || containsSub threadName.toList "Worker".toList

/-- `_run_sync_thread_isolated` (helpers.py lines 129-174), outcome only.
A helper thread builds a brand-new event loop and runs
`asyncio.wait_for(coro, timeout=25)` on it:
if the work takes longer than 25 seconds the `wait_for` cancels it and
raises `asyncio.TimeoutError`, which line 151 converts to
`TimeoutError("Extended SDK operation timed out after 25 seconds")`.
A `TimeoutError` raised by the work itself is caught by the same
`except asyncio.TimeoutError` clause and replaced by that same message;
every other exception is stored and re-raised unchanged (lines 152-153 and
171-172).  The outer `future.result(timeout=30)` on line 167 can only fire
if the helper thread itself wedges, which has no counterpart for work that
completes or raises within its `duration`, so it does not appear here. -/
def run_isolated (w : Work α) : Except PyExc α :=
  if 25 < w.duration then
    .error (.timeoutExc "Extended SDK operation timed out after 25 seconds")
  else
    match w.outcome with
    | .ok v => .ok v
    | .error (.timeoutExc _) =>
        .error (.timeoutExc "Extended SDK operation timed out after 25 seconds")
    | .error e => .error e

/-- The calling context of one `run_sync` invocation: the calling thread's
name, whether it is the main thread, and whether an event loop is already
running on it (`asyncio.get_running_loop()` succeeds). -/
structure CallCtx where
  threadName : String
  isMainThread : Bool
  hasRunningLoop : Bool

/-- `run_sync` (helpers.py lines 56-126), outcome only.
Pool-named threads (lines 74-82) go straight to `_run_sync_thread_isolated`.
Every other path (nested `run_until_complete` on the running loop, the
thread-local loop of a worker thread, or the main thread's loop) runs the
coroutine to completion with no timeout and propagates its outcome, except
that a `RuntimeError` containing `"attached to a different loop"` is caught
on line 120-123 and retried through `_run_sync_thread_isolated` — but the
coroutine was already consumed by the failed first run, so the retry's
`wait_for(coro, ...)` raises `RuntimeError("cannot reuse already awaited
coroutine")`, which the isolated runner re-raises. -/
def run_sync (ctx : CallCtx) (w : Work α) : Except PyExc α :=
  if is_threadpool ctx.threadName then
    run_isolated w
  else if has_loop_conflict w then
    .error (.runtimeError "cannot reuse already awaited coroutine")
  else
    w.outcome

/- ------------------------------------------------------------------
   Event-loop bookkeeping of run_sync (helpers.py lines 74-126)
   ------------------------------------------------------------------ -/

/-- An event-loop instance: its identity and whether it has been closed. -/
structure LoopRef where
  id : Nat
  closed : Bool
deriving DecidableEq, Repr

/-- The loop registry visible to one calling thread: `nextId` numbers the
loops created so far (so `nextId` is the identity a freshly constructed
loop would get), `threadLocalLoop` is `_thread_local.loop` for this thread
(helpers.py line 20 and 101-106), `mainThreadLoop` is the loop
`asyncio.get_event_loop()` would hand the main thread (lines 109-115). -/
structure LoopEnv where
  nextId : Nat
  threadLocalLoop : Option LoopRef
  mainThreadLoop : Option LoopRef
deriving DecidableEq, Repr

/-- Which scheduler the work was first run on. -/
inductive SchedulerUse where
  | isolatedFresh (id : Nat)
  | runningLoop
  | threadLocalLoop (id : Nat)
  | mainLoop (id : Nat)
deriving DecidableEq, Repr

/-- What one `run_sync` call did to the loop registry: the scheduler the
work first ran on, the registry afterwards, and the identities of loops
that were created for this call only and closed before it returned. -/
structure CallTrace where
  use : SchedulerUse
  envAfter : LoopEnv
  loopsCreatedAndClosed : List Nat
deriving DecidableEq, Repr

/-- Loop selection on the non-pool path of `run_sync` (lines 85-118): a
running loop is used in place via `nest_asyncio`; otherwise a non-main
thread reuses `_thread_local.loop` unless it is absent or closed (lines
99-106), and the main thread reuses `asyncio.get_event_loop()` unless it
is absent or closed (lines 107-116); an absent or closed loop is replaced
by a freshly created one that is stored for later calls. -/
def select_loop (ctx : CallCtx) (env : LoopEnv) : SchedulerUse × LoopEnv :=
  if ctx.hasRunningLoop then
    (.runningLoop, env)
  else if !ctx.isMainThread then
    match env.threadLocalLoop with
    | some l =>
      if l.closed then
        (.threadLocalLoop env.nextId,
         { env with nextId := env.nextId + 1,
                    threadLocalLoop := some { id := env.nextId, closed := false } })
      else
        (.threadLocalLoop l.id, env)
    | none =>
      (.threadLocalLoop env.nextId,
       { env with nextId := env.nextId + 1,
                  threadLocalLoop := some { id := env.nextId, closed := false } })
  else
    match env.mainThreadLoop with
    | some l =>
      if l.closed then
        (.mainLoop env.nextId,
         { env with nextId := env.nextId + 1,
                    mainThreadLoop := some { id := env.nextId, closed := false } })
      else
        (.mainLoop l.id, env)
    | none =>
      (.mainLoop env.nextId,
       { env with nextId := env.nextId + 1,
                  mainThreadLoop := some { id := env.nextId, closed := false } })

/-- One `run_sync` call seen through the loop registry.  A pool-named thread
never consults the registry: `_run_sync_thread_isolated` builds a brand-new
loop in a single-use helper thread and closes it in its `finally` block
(lines 145-158).  Any other thread picks a loop with `select_loop`; if the
work then dies with the cross-loop `RuntimeError`, the line 123 retry runs
`_run_sync_thread_isolated`, which again creates and closes one extra
helper loop. -/
def run_sync_step (ctx : CallCtx) (w : Work α) (env : LoopEnv) : CallTrace :=
  if is_threadpool ctx.threadName then
    { use := .isolatedFresh env.nextId,
      envAfter := { env with nextId := env.nextId + 1 },
      loopsCreatedAndClosed := [env.nextId] }
  else
    let sel := select_loop ctx env
    if has_loop_conflict w then
      { use := sel.1,
        envAfter := { sel.2 with nextId := sel.2.nextId + 1 },
        loopsCreatedAndClosed := [sel.2.nextId] }
    else
      { use := sel.1, envAfter := sel.2, loopsCreatedAndClosed := [] }

/- ------------------------------------------------------------------
   Response envelopes (src/extended/transformers/order.py)
   ------------------------------------------------------------------ -/

/-- A JSON-like Python value as returned by the compatibility interface. -/
inductive JValue where
  | str (s : String)
  | num (n : Int)
  | bool (b : Bool)
  | null
  | arr (xs : List JValue)
  | obj (fields : List (String × JValue))

/-- `Optional[str]` rendered into the envelope: a string or `None`. -/
def jstrOpt : Option String → JValue
  | some s => .str s
  | none => .null

/-- The upstream SDK's `PlacedOrderModel`: the fields
`transform_order_response` reads from it. -/
structure PlacedOrder where
  id : Nat
  external_id : Option String

/-- `OrderTransformer.transform_order_response` (order.py lines 115-143). -/
def transform_order_response (placed_order : PlacedOrder) : JValue :=
  .obj [("status", .str "ok"),
        ("response",
         .obj [("type", .str "order"),
               ("data",
                .obj [("statuses",
                       .arr [.obj [("resting",
                                    .obj [("oid", .num placed_order.id),
                                          ("cloid", jstrOpt placed_order.external_id)])]])])])]

/-- `OrderTransformer.transform_error_response` (order.py lines 176-192). -/
def transform_error_response (message : String) : JValue :=
  .obj [("status", .str "err"), ("response", .str message)]

/-- `OrderTransformer.transform_cancel_response` (order.py lines 145-174). -/
def transform_cancel_response (success : Bool) (order_id : Option Nat) : JValue :=
  if success then
    .obj [("status", .str "ok"),
          ("response",
           .obj [("type", .str "cancel"),
                 ("data", .obj [("statuses", .arr [.str "success"])])])]
  else
    .obj [("status", .str "err"), ("response", .str "Cancel failed")]

/- ------------------------------------------------------------------
   order / cancel (src/extended/api/exchange_async.py lines 51-218)
   ------------------------------------------------------------------ -/

/-- `AsyncExchangeAPI.order`, lines 88-105: the `try` block around
`self._client.place_order`.  The upstream call's outcome is the input:
a `PlacedOrderModel` on success, an exception otherwise.  Every exception
is caught by `except Exception` and turned into
`transform_error_response(str(e))`; a success is passed through
`transform_order_response`.  (The argument marshalling of lines 80-86
happens before the `try` and does not touch the network.) -/
def order (upstream : Except PyExc PlacedOrder) : JValue :=
  match upstream with
  | .ok placed => transform_order_response placed
  | .error e => transform_error_response (pymsg e)

/-- The two upstream cancellation entry points used by
`AsyncExchangeAPI.cancel` (lines 195-200). -/
inductive UpstreamCall where
  | cancelOrder (order_id : Nat)
  | cancelOrderByExternalId (external_id : String)
deriving DecidableEq, Repr

/-- `AsyncExchangeAPI.cancel` (lines 173-205).  `upstream` answers each
SDK call.  Returns the Python return-or-raise outcome together with the
list of upstream calls actually made.  Lines 191-192 raise
`ExtendedValidationError` before the `try` block when both identifiers are
absent, so no upstream call is recorded on that path; otherwise the order
id takes precedence (line 195), failures of the upstream call are caught
and converted to the error envelope (lines 204-205). -/
def cancel (oid : Option Nat) (cloid : Option String)
    (upstream : UpstreamCall → Except PyExc Unit) :
    Except PyExc JValue × List UpstreamCall :=
  match oid, cloid with
  | none, none =>
    (.error (.validationError "Either oid or cloid must be provided"), [])
  | some i, _ =>
    (match upstream (.cancelOrder i) with
     | .ok _ => .ok (transform_cancel_response true (some i))
     | .error e => .ok (transform_error_response (pymsg e)),
     [.cancelOrder i])
  | none, some c =>
    (match upstream (.cancelOrderByExternalId c) with
     | .ok _ => .ok (transform_cancel_response true none)
     | .error e => .ok (transform_error_response (pymsg e)),
     [.cancelOrderByExternalId c])

/- ------------------------------------------------------------------
   Market-order price deriver
   (src/extended/api/exchange_async.py lines 301-367 and
    src/extended/api/exchange_native_sync.py lines 431-483)
   ------------------------------------------------------------------ -/

/-- The exact rational value of the Python expression `Decimal(1 + slippage)`
for `slippage = 0.01`: `1 + 0.01` is evaluated in binary64 floating point,
giving the double nearest to 1.01, namely `4548635623644201 * 2^-52 =
1.0100000000000000088817841970012523233890533447265625`, and
`Decimal(float)` converts that value exactly. -/
def decimal_of_float_1_01 : ℚ := 4548635623644201 / 4503599627370496

/-- The exact rational value of `Decimal(1 + slippage)` for
`slippage = 0.02`: the binary64 double nearest to 1.02 is
`4593671619917906 * 2^-52 = 1.0200000000000000177635683940025046...`,
converted exactly by `Decimal(float)`. -/
def decimal_of_float_1_02 : ℚ := 4593671619917906 / 4503599627370496

/-- The buy branch of `_calculate_market_order_price`
(exchange_async.py lines 344-355, exchange_native_sync.py lines 466-474)
for a given best ask.  `one_plus_slippage` is the exact value of
`Decimal(1 + slippage)`; `target_price = best_ask * Decimal(1 + slippage)`,
`max_price = mark_price * Decimal("1.05")` (`MARKET_ORDER_PRICE_CAP`
stringified first, hence exact), `price = min(target_price, max_price)`,
and the result is rounded up to the tick:
`(price / tick_size).quantize(Decimal(1), rounding=ROUND_CEILING) *
tick_size` in the native sync version, with the async version delegating
the same ceiling-to-tick rounding to the upstream SDK's
`trading_config.round_price(price, ROUND_CEILING)`.  `Decimal` arithmetic
carries 28 significant digits; on every input used in the theorems below
the 28-digit rounding leaves each intermediate value strictly between the
same two consecutive ticks as the exact rational value, so the exact
model computes the same result. -/
def calc_market_buy_price (best_ask mark_price one_plus_slippage tick_size : ℚ) : ℚ :=
  let target_price := best_ask * one_plus_slippage
  let max_price := mark_price * (105 / 100)
  let price := min target_price max_price
  (⌈price / tick_size⌉ : ℚ) * tick_size

/-- The buy branch including the empty-book fallback (exchange_async.py
lines 346-350): `best_ask = orderbook.ask[0].price if orderbook.ask else
mark_price`, then the computation of `calc_market_buy_price`. -/
def calc_market_buy_price_book (asks : List ℚ) (mark_price one_plus_slippage tick_size : ℚ) : ℚ :=
  let best_ask := match asks with
    | a :: _ => a
    | [] => mark_price
  calc_market_buy_price best_ask mark_price one_plus_slippage tick_size

/- ------------------------------------------------------------------
   Helper lemmas
   ------------------------------------------------------------------ -/

theorem stripFuel_nil (fuel : Nat) : stripFuel fuel [] = [] := by
  cases fuel <;> rfl

theorem stripFuel_append_usd :
    ∀ (fuel : Nat) (l : List Char), l.length + 4 ≤ fuel → '-' ∉ l →
      stripFuel fuel (l ++ usdSuffix) = l := by
  intro fuel
  induction fuel with
  | zero => intro l hl _; exact absurd hl (by omega)
  | succ n ih =>
    intro l hl hmem
    cases l with
    | nil =>
      simp only [List.nil_append]
      show stripFuel (n + 1) usdSuffix = []
      simp [stripFuel, usdSuffix, List.isPrefixOf, stripFuel_nil]
    | cons c t =>
      have hc : ¬('-' = c) := by
        intro e
        exact hmem (by simp [← e])
      have ht : '-' ∉ t := fun h => hmem (List.mem_cons_of_mem _ h)
      have hlen : t.length + 4 ≤ n := by
        simp only [List.length_cons] at hl
        omega
      have hbeq : ('-' == c) = false := beq_eq_false_iff_ne.mpr (fun e => hc e)
      have husd : usdSuffix.isPrefixOf (c :: (t ++ usdSuffix)) = false := by
        simp [usdSuffix, List.isPrefixOf, hbeq]
      simp only [List.cons_append, stripFuel, List.append_eq, husd, Bool.false_eq_true, if_false]
      rw [ih t hlen ht]

theorem select_loop_stable (ctx : CallCtx) (env : LoopEnv) :
    select_loop ctx (select_loop ctx env).2 = select_loop ctx env := by
  cases hr : ctx.hasRunningLoop with
  | true => simp [select_loop, hr]
  | false =>
    cases hm : ctx.isMainThread with
    | false =>
      cases htl : env.threadLocalLoop with
      | none => simp [select_loop, hr, hm, htl]
      | some l =>
        cases hc : l.closed with
        | true => simp [select_loop, hr, hm, htl, hc]
        | false => simp [select_loop, hr, hm, htl, hc]
    | true =>
      cases hml : env.mainThreadLoop with
      | none => simp [select_loop, hr, hm, hml]
      | some l =>
        cases hc : l.closed with
        | true => simp [select_loop, hr, hm, hml, hc]
        | false => simp [select_loop, hr, hm, hml, hc]

/- ------------------------------------------------------------------
   Claim theorems
   ------------------------------------------------------------------ -/

/-- C1, counterexample to the claim as stated: `run_sync` has no
caller-supplied timeout defaulting to 30 seconds that applies on every
execution path.  On the main-thread path with no running loop, work that
takes 100 seconds and then returns 7 is simply awaited to completion and
its value returned; no timeout-kind error is raised. -/
theorem run_sync_no_default_timeout_cex :
    ¬ (∀ (ctx : CallCtx) (w : Work Nat), 30 < w.duration →
        ∃ msg : String, run_sync ctx w = .error (.timeoutExc msg)) := by
  intro h
  obtain ⟨msg, hmsg⟩ := h ⟨"MainThread", true, false⟩ ⟨100, .ok 7⟩ (by norm_num)
  have heval : run_sync (⟨"MainThread", true, false⟩ : CallCtx) (⟨100, .ok 7⟩ : Work Nat)
      = .ok 7 := rfl
  rw [heval] at hmsg
  exact Except.noConfusion hmsg

/-- C1, amended: `run_sync` accepts no timeout argument.  Only the
thread-isolated path taken for pool-named threads bounds the work, by a
fixed internal 25-second timeout, raising the distinguishable
`TimeoutError("Extended SDK operation timed out after 25 seconds")` and
leaving the calling thread's stored loops untouched; on the other paths
the work's outcome is propagated with no timeout at all. -/
theorem run_sync_timeout_only_isolated (ctx : CallCtx) (w : Work Nat) (env : LoopEnv) :
    (is_threadpool ctx.threadName = true → 25 < w.duration →
      run_sync ctx w
          = .error (.timeoutExc "Extended SDK operation timed out after 25 seconds") ∧
      (run_sync_step ctx w env).envAfter.threadLocalLoop = env.threadLocalLoop ∧
      (run_sync_step ctx w env).envAfter.mainThreadLoop = env.mainThreadLoop) ∧
    (is_threadpool ctx.threadName = false → has_loop_conflict w = false →
      run_sync ctx w = w.outcome) := by
  constructor
  · intro hp hd
    refine ⟨?_, ?_, ?_⟩ <;> simp [run_sync, run_isolated, run_sync_step, hp, hd]
  · intro hp hc
    simp [run_sync, hp, hc]

/-- C1, witness for the amended theorem at a concrete pool-named thread. -/
theorem run_sync_timeout_only_isolated_w :
    run_sync (⟨"Worker-9", false, false⟩ : CallCtx) (⟨26, .ok 1⟩ : Work Nat)
      = .error (.timeoutExc "Extended SDK operation timed out after 25 seconds") :=
  ((run_sync_timeout_only_isolated ⟨"Worker-9", false, false⟩ ⟨26, .ok 1⟩
      ⟨0, none, none⟩).1 (by decide) (by norm_num)).1

/-- C2, counterexample to the claim as stated: on a thread named
`"ThreadPoolExecutor-0_0"` with no running loop, two sequential `run_sync`
calls do not observe the same scheduler — each builds a brand-new isolated
loop — and each call creates and then destroys a scheduler. -/
theorem per_thread_loop_reuse_cex :
    ¬ (∀ (ctx : CallCtx) (env : LoopEnv) (w : Work Nat),
        ctx.hasRunningLoop = false →
        (run_sync_step ctx w ((run_sync_step ctx w env).envAfter)).use
            = (run_sync_step ctx w env).use ∧
        (run_sync_step ctx w env).loopsCreatedAndClosed = []) := by
  intro h
  have h2 := (h ⟨"ThreadPoolExecutor-0_0", false, false⟩ ⟨0, none, none⟩ ⟨0, .ok 0⟩ rfl).2
  exact absurd h2 (by decide)

/-- C2, amended: for every thread whose name does not contain
`"ThreadPoolExecutor"`, `"CrossEx"` or `"Worker"`, two sequential
`run_sync` calls with no scheduler already running and with work that does
not raise the cross-loop-attachment `RuntimeError` observe the same
per-thread scheduler, create and destroy no per-invocation loop, and a
stored open loop is reused as-is; a new loop is created only when the
stored one is absent or closed. -/
theorem per_thread_loop_reuse (ctx : CallCtx) (env : LoopEnv) (w1 w2 : Work Nat)
    (hname : is_threadpool ctx.threadName = false)
    (hrun : ctx.hasRunningLoop = false)
    (h1 : has_loop_conflict w1 = false) (h2 : has_loop_conflict w2 = false) :
    (run_sync_step ctx w2 ((run_sync_step ctx w1 env).envAfter)).use
        = (run_sync_step ctx w1 env).use ∧
    (run_sync_step ctx w2 ((run_sync_step ctx w1 env).envAfter)).envAfter
        = (run_sync_step ctx w1 env).envAfter ∧
    (run_sync_step ctx w1 env).loopsCreatedAndClosed = [] ∧
    (run_sync_step ctx w2 ((run_sync_step ctx w1 env).envAfter)).loopsCreatedAndClosed = [] ∧
    (∀ l : LoopRef, ctx.isMainThread = false → env.threadLocalLoop = some l →
      l.closed = false →
        (run_sync_step ctx w1 env).use = .threadLocalLoop l.id ∧
        (run_sync_step ctx w1 env).envAfter = env) := by
  have hs := select_loop_stable ctx env
  refine ⟨?_, ?_, ?_, ?_, ?_⟩
  · simp [run_sync_step, hname, h1, h2, hs]
  · simp [run_sync_step, hname, h1, h2, hs]
  · simp [run_sync_step, hname, h1]
  · simp [run_sync_step, hname, h1, h2]
  · intro l hm htl hcl
    constructor <;> simp [run_sync_step, hname, h1, select_loop, hrun, hm, htl, hcl]

/-- C2, witness for the amended theorem on a concrete plain worker thread. -/
theorem per_thread_loop_reuse_w :
    (run_sync_step (⟨"Thread-7", false, false⟩ : CallCtx) (⟨1, .ok 0⟩ : Work Nat)
        ((run_sync_step (⟨"Thread-7", false, false⟩ : CallCtx) (⟨1, .ok (0 : Nat)⟩ : Work Nat)
          ⟨0, none, none⟩).envAfter)).use
      = (run_sync_step (⟨"Thread-7", false, false⟩ : CallCtx) (⟨1, .ok 0⟩ : Work Nat)
          ⟨0, none, none⟩).use :=
  (per_thread_loop_reuse ⟨"Thread-7", false, false⟩ ⟨0, none, none⟩ ⟨1, .ok 0⟩ ⟨1, .ok 0⟩
    (by decide) rfl (by decide) (by decide)).1

/-- C3, counterexample to the claim as stated: not every failing cancel
returns the error envelope.  A cancel with neither `oid` nor `cloid`
raises `ExtendedValidationError("Either oid or cloid must be provided")`
instead of returning `{"status": "err", ...}`, whatever the upstream
would answer. -/
theorem error_envelope_cex :
    (cancel none none (fun _ => .ok ())).1
      = .error (.validationError "Either oid or cloid must be provided") := rfl

/-- C3, amended: every exception raised by the upstream call inside
`order(...)` is caught and converted to the
`{"status": "err", "response": str(e)}` envelope, and a cancel that was
given at least one identifier likewise returns an envelope rather than
raising — with upstream failures converted to the error envelope on both
cancel branches; only a cancel given neither identifier raises
(`ExtendedValidationError`). -/
theorem error_envelope_amended :
    (∀ e : PyExc, order (.error e) = transform_error_response (pymsg e)) ∧
    (∀ (oid : Option Nat) (cloid : Option String) (u : UpstreamCall → Except PyExc Unit),
      oid ≠ none ∨ cloid ≠ none → ∃ j : JValue, (cancel oid cloid u).1 = .ok j) ∧
    (∀ (i : Nat) (e : PyExc),
      (cancel (some i) none (fun _ => .error e)).1 = .ok (transform_error_response (pymsg e))) ∧
    (∀ (c : String) (e : PyExc),
      (cancel none (some c) (fun _ => .error e)).1
        = .ok (transform_error_response (pymsg e))) := by
  refine ⟨fun e => rfl, ?_, fun i e => rfl, fun c e => rfl⟩
  intro oid cloid u h
  rcases oid with _ | i
  · rcases cloid with _ | c
    · simp at h
    · cases hu : u (.cancelOrderByExternalId c) with
      | ok v => exact ⟨transform_cancel_response true none, by simp [cancel, hu]⟩
      | error e => exact ⟨transform_error_response (pymsg e), by simp [cancel, hu]⟩
  · cases hu : u (.cancelOrder i) with
    | ok v => exact ⟨transform_cancel_response true (some i), by simp [cancel, hu]⟩
    | error e => exact ⟨transform_error_response (pymsg e), by simp [cancel, hu]⟩

/-- C3, witness for the amended theorem at concrete inputs. -/
theorem error_envelope_amended_w :
    order (.error (.valueError "boom")) = transform_error_response "boom" ∧
    ∃ j : JValue, (cancel (some 7) none (fun _ => .ok ())).1 = .ok j :=
  ⟨error_envelope_amended.1 (.valueError "boom"),
   error_envelope_amended.2.1 (some 7) none (fun _ => .ok ()) (Or.inl (by simp))⟩

/-- C5, counterexample to the claim as stated: a deferred computation that
raises `RuntimeError("got Future attached to a different loop")` does not
have its exception propagated unchanged — the line 123 retry re-awaits the
consumed coroutine and surfaces
`RuntimeError("cannot reuse already awaited coroutine")` instead. -/
theorem exception_fidelity_cex :
    ¬ (∀ (ctx : CallCtx) (w : Work Nat) (e : PyExc),
        w.outcome = .error e → w.duration = 0 → run_sync ctx w = .error e) := by
  intro h
  have hinst := h ⟨"MainThread", true, false⟩
    ⟨0, .error (.runtimeError "got Future attached to a different loop")⟩
    (.runtimeError "got Future attached to a different loop") rfl rfl
  have heval : run_sync (⟨"MainThread", true, false⟩ : CallCtx)
      (⟨0, .error (.runtimeError "got Future attached to a different loop")⟩ : Work Nat)
      = .error (.runtimeError "cannot reuse already awaited coroutine") := rfl
  rw [heval] at hinst
  simp only [Except.error.injEq, PyExc.runtimeError.injEq] at hinst
  exact absurd hinst (by decide)

/-- C5, amended: a promptly-failing deferred computation has its exception
propagated with original type and value unchanged, except in two cases: on
the non-pool paths a `RuntimeError` whose message contains
`"attached to a different loop"` is retried on the consumed coroutine
(surfacing the reuse `RuntimeError`), and on the thread-isolated path a
`TimeoutError` raised by the work is replaced by the injected timeout
error. -/
theorem exception_fidelity (ctx : CallCtx) (w : Work Nat) (e : PyExc)
    (ho : w.outcome = .error e) (hd : w.duration ≤ 25) :
    (is_threadpool ctx.threadName = false → has_loop_conflict w = false →
      run_sync ctx w = .error e) ∧
    (is_threadpool ctx.threadName = true → is_timeout_exc e = false →
      run_sync ctx w = .error e) := by
  constructor
  · intro hp hc
    simp [run_sync, hp, hc, ho]
  · intro hp ht
    have hnd : ¬(25 < w.duration) := not_lt.mpr hd
    cases e <;> simp_all [run_sync, run_isolated, is_timeout_exc]

/-- C5, witness: `ValueError("x")` raised by the work surfaces from
`run_sync` with its message unchanged. -/
theorem exception_fidelity_w :
    run_sync (⟨"MainThread", true, false⟩ : CallCtx)
      (⟨0, .error (.valueError "x")⟩ : Work Nat) = .error (.valueError "x") :=
  (exception_fidelity ⟨"MainThread", true, false⟩ ⟨0, .error (.valueError "x")⟩
    (.valueError "x") rfl (by norm_num)).1 (by decide) (by decide)

/-- C7: a cancel in which both `oid` and `cloid` are `None` raises
`ExtendedValidationError` synchronously, and the list of upstream calls
made is empty — no I/O is attempted, no state is touched. -/
theorem cancel_requires_identifier (u : UpstreamCall → Except PyExc Unit) :
    cancel none none u
      = (.error (.validationError "Either oid or cloid must be provided"), []) := rfl

/-- C8: every successful order placement returns exactly the envelope
`{"status": "ok", "response": {"type": "order", "data": {"statuses":
[{"resting": {"oid": ..., "cloid": ...}}]}}}` with the `oid`/`cloid` field
names preserved. -/
theorem order_success_envelope (p : PlacedOrder) :
    order (.ok p)
      = .obj [("status", .str "ok"),
              ("response",
               .obj [("type", .str "order"),
                     ("data",
                      .obj [("statuses",
                             .arr [.obj [("resting",
                                          .obj [("oid", .num p.id),
                                                ("cloid", jstrOpt p.external_id)])]])])])] := rfl

/-- C9: on a thread whose name contains `"ThreadPoolExecutor"`, `"CrossEx"`
or `"Worker"`, `run_sync` runs the work on a freshly created single-use
loop that is closed when the call ends, never consults or changes the
stored per-thread and main-thread loops, behaves as
`_run_sync_thread_isolated`, and applies the fixed internal 25-second
timeout. -/
theorem threadpool_isolated_dispatch (ctx : CallCtx) (env : LoopEnv) (w : Work Nat)
    (h : is_threadpool ctx.threadName = true) :
    (run_sync_step ctx w env).use = .isolatedFresh env.nextId ∧
    (run_sync_step ctx w env).loopsCreatedAndClosed = [env.nextId] ∧
    (run_sync_step ctx w env).envAfter.threadLocalLoop = env.threadLocalLoop ∧
    (run_sync_step ctx w env).envAfter.mainThreadLoop = env.mainThreadLoop ∧
    run_sync ctx w = run_isolated w ∧
    (25 < w.duration →
      run_sync ctx w
        = .error (.timeoutExc "Extended SDK operation timed out after 25 seconds")) := by
  refine ⟨?_, ?_, ?_, ?_, ?_, ?_⟩
  · simp [run_sync_step, h]
  · simp [run_sync_step, h]
  · simp [run_sync_step, h]
  · simp [run_sync_step, h]
  · simp [run_sync, h]
  · intro hd
    simp [run_sync, run_isolated, h, hd]

/-- C9, witness at a concrete `CrossEx`-named thread with slow work. -/
theorem threadpool_isolated_dispatch_w :
    run_sync (⟨"CrossEx-1", false, false⟩ : CallCtx) (⟨30, .ok 5⟩ : Work Nat)
      = .error (.timeoutExc "Extended SDK operation timed out after 25 seconds") :=
  (threadpool_isolated_dispatch ⟨"CrossEx-1", false, false⟩ ⟨0, none, none⟩ ⟨30, .ok 5⟩
    (by decide)).2.2.2.2.2 (by norm_num)

/-- C4: evaluation of the buy-price derivation at the claim's input,
`best_ask = 50010`, `mark_price = 50000`, `slippage = 0.01` (a Python
float), `tick = 0.1`.  Because line 351 computes `Decimal(1 + slippage)`
from the binary64 float 1.01 (which is
1.0100000000000000088817841970012523...), the target exceeds 50510.1 by
about 4.4e-13 and the ceiling-to-tick rounding returns 50510.2, not the
50510.1 the claim states; with the exact multiplier 1.01 the same code
would return 50510.1. -/
theorem market_buy_price_float_bug :
    calc_market_buy_price_book [(50010 : ℚ)] 50000 decimal_of_float_1_01 (1 / 10)
        = 252551 / 5 ∧
    calc_market_buy_price_book [(50010 : ℚ)] 50000 (101 / 100) (1 / 10) = 505101 / 10 ∧
    (252551 / 5 : ℚ) ≠ 505101 / 10 := by
  refine ⟨?_, ?_, by norm_num⟩
  · have hceil : ⌈((50010 : ℚ) * (4548635623644201 / 4503599627370496)
        ⊓ 50000 * (105 / 100)) / (1 / 10)⌉ = 505102 := by
      rw [Int.ceil_eq_iff]
      constructor <;> norm_num
    simp only [calc_market_buy_price_book, calc_market_buy_price, decimal_of_float_1_01]
    rw [hceil]
    norm_num
  · have hceil : ⌈((50010 : ℚ) * (101 / 100) ⊓ 50000 * (105 / 100)) / (1 / 10)⌉ = 505101 := by
      rw [Int.ceil_eq_iff]
      constructor <;> norm_num
    simp only [calc_market_buy_price_book, calc_market_buy_price]
    rw [hceil]
    norm_num

/-- C6: with an empty ask side the mark price is substituted as the
best-ask input (first conjunct, for every input).  At the claim's concrete
input — `mark_price = 50000`, `slippage = 0.02` (a Python float),
`tick = 1` — the float-contaminated multiplier `Decimal(1 + 0.02)` =
1.0200000000000000177635683940025... makes the target 51000.0000000000009
and the ceiling rounding returns 51001, not the 51000 the claim states;
with the exact multiplier 1.02 the same code would return 51000. -/
theorem empty_book_fallback_float_bug :
    (∀ mark_price one_plus_slippage tick_size : ℚ,
      calc_market_buy_price_book [] mark_price one_plus_slippage tick_size
        = calc_market_buy_price mark_price mark_price one_plus_slippage tick_size) ∧
    calc_market_buy_price_book ([] : List ℚ) 50000 decimal_of_float_1_02 1 = 51001 ∧
    calc_market_buy_price_book ([] : List ℚ) 50000 (102 / 100) 1 = 51000 ∧
    (51001 : ℚ) ≠ 51000 := by
  refine ⟨fun _ _ _ => rfl, ?_, ?_, by norm_num⟩
  · have hceil : ⌈((50000 : ℚ) * (4593671619917906 / 4503599627370496)
        ⊓ 50000 * (105 / 100)) / 1⌉ = 51001 := by
      rw [Int.ceil_eq_iff]
      constructor <;> norm_num
    simp only [calc_market_buy_price_book, calc_market_buy_price, decimal_of_float_1_02]
    rw [hceil]
    norm_num
  · have hceil : ⌈((50000 : ℚ) * (102 / 100) ⊓ 50000 * (105 / 100)) / 1⌉ = 51000 := by
      rw [Int.ceil_eq_iff]
      constructor <;> norm_num
    simp only [calc_market_buy_price_book, calc_market_buy_price]
    rw [hceil]
    norm_num

/-- C10: for every market name containing no `-` character, converting to
the Extended format and back is the identity:
`to_hyperliquid_market_name(normalize_market_name(name)) = name`. -/
theorem market_name_roundtrip (name : List Char) (h : '-' ∉ name) :
    to_hyperliquid_market_name (normalize_market_name name) = name := by
  unfold normalize_market_name to_hyperliquid_market_name stripUSD
  rw [if_pos h]
  have hlen : (name ++ usdSuffix).length = name.length + 4 := by simp [usdSuffix]
  rw [hlen]
  exact stripFuel_append_usd _ name (le_refl _) h

/-- C10, witness: the roundtrip at the concrete name `"BTC"`. -/
theorem market_name_roundtrip_w :
    to_hyperliquid_market_name (normalize_market_name ['B', 'T', 'C']) = ['B', 'T', 'C'] :=
  market_name_roundtrip ['B', 'T', 'C'] (by decide)
